import Mathlib

/-!
Verification of the generic entity access layer of the Two7POSV4 backend,
instantiated (as in the source) at the `items` entity.  The embedding follows
`app/backend/services/items.py` (service layer) and
`app/backend/routers/items.py` (router layer).  Rows are finite maps from
column names to SQL values, the database is the list of rows of the `items`
table together with the auto-increment counter.
-/

set_option autoImplicit false

namespace Two7POS

/-- A SQL column value: NULL, integer, string or boolean.  Float columns are
represented by their stored value like any other; no claim computes with
them, so no arithmetic on floats is modelled. -/
inductive Value where
  | null
  | int (n : Int)
  | str (s : String)
  | bool (b : Bool)
  deriving DecidableEq, Repr

/-- One column binding: column name and value. -/
abbrev Field := String × Value

/-- A table row (or a Python attribute dict): association list from column
name to value; the first occurrence of a key is the binding that counts. -/
abbrev Row := List Field

/-- Look up the first binding of a key, like Python attribute access. -/
def lookupField : Row → String → Option Value
  | [], _ => none
  | (k, v) :: rest, key => if k = key then some v else lookupField rest key

/-- `getattr(obj, k)`: the stored value, NULL when the column was never set
(SQL default for an unset nullable column). -/
def getAttr (r : Row) (k : String) : Value :=
  (lookupField r k).getD Value.null

/-- `setattr(obj, k, v)` / `data[k] = v`: replace the first binding of the
key, or append a new binding when the key is absent. -/
def setField : Row → String → Value → Row
  | [], key, v => [(key, v)]
  | (k, w) :: rest, key, v =>
      if k = key then (key, v) :: rest else (k, w) :: setField rest key v

/-- Modelled from the spec: the shared declarative base (`models/base.py`,
not in the source tree) contributes the surrogate auto-increment primary key
`id`, the owner field `user_id` and the `created_at`/`updated_at`
timestamps to every entity table. -/
def baseColumns : List String :=
  ["id", "user_id", "created_at", "updated_at"]

/-- Columns of the `Items` model: the base columns plus the columns declared
in `models/items.py`. -/
def itemsColumns : List String :=
  baseColumns ++
    ["organization_id", "name", "description", "item_type", "sku",
     "base_price", "cost", "tax_rate", "category", "image_url", "is_active",
     "track_inventory", "current_stock", "low_stock_alert"]

/-- `hasattr(Items, k)`: whether `k` is a column of the `items` table. -/
def isColumn (k : String) : Bool :=
  itemsColumns.contains k

/-- The state of the `items` table: its rows in storage order, and the next
value of the auto-increment `id` sequence. -/
structure DB where
  rows : List Row
  nextId : Int
  deriving DecidableEq, Repr

/-- The `id` column of a row. -/
def rowId (r : Row) : Value :=
  getAttr r "id"

/-- Freshness of the auto-increment counter: every stored integer `id` is
below `nextId`. -/
def DB.fresh (db : DB) : Bool :=
  db.rows.all (fun r =>
    match rowId r with
    | Value.int n => decide (n < db.nextId)
    | _ => true)

/-- Rows of a table have pairwise distinct `id`s. -/
def distinctIds : List Row → Bool
  | [] => true
  | r :: rest => rest.all (fun s => !decide (rowId r = rowId s)) && distinctIds rest

/-- Primary-key uniqueness of the table. -/
def DB.uniqueIds (db : DB) : Bool :=
  distinctIds db.rows

/-- The owner test compiled by `if user_id: query.where(Items.user_id == user_id)`:
with no identity, or with the empty string (falsy in Python), every row
passes; otherwise the row's `user_id` column must equal the identity. -/
def ownerMatches (userId : Option String) (r : Row) : Bool :=
  match userId with
  | none => true
  | some u => if u = "" then true else decide (getAttr r "user_id" = Value.str u)

/-- Lines 22-23 of the service: `if user_id: data['user_id'] = user_id`. -/
def injectOwner (data : Row) (userId : Option String) : Row :=
  match userId with
  | none => data
  | some u => if u = "" then data else setField data "user_id" (Value.str u)

/-- `Items(**data)` succeeds exactly when every key of `data` is a column. -/
def validData (d : Row) : Bool :=
  d.all (fun kv => isColumn kv.1)

/-- The error raised by `Items(**data)` on an unknown keyword (a `TypeError`
in Python); the service re-raises it after rollback. -/
inductive SvcError where
  | invalidField
  deriving DecidableEq, Repr

/-- The inserted row: the data dict, with the auto-increment `id` assigned by
storage when the caller did not set the primary key. -/
def rowOfData (data : Row) (fresh : Int) : Row :=
  match lookupField data "id" with
  | some _ => data
  | none => setField data "id" (Value.int fresh)

/-- `ItemsService.create` (service lines 19-33): inject the owner, build the
row, commit.  On an invalid field the constructor raises; the session is
rolled back (state unchanged) and the error propagates. -/
def create (data : Row) (userId : Option String) (db : DB) :
    Except SvcError (DB × Row) :=
  let d := injectOwner data userId
  if validData d then
    let newRow := rowOfData d db.nextId
    Except.ok ({ rows := db.rows ++ [newRow], nextId := db.nextId + 1 }, newRow)
  else
    Except.error SvcError.invalidField

/-- `ItemsService.get_by_id` (service lines 44-54): select by `id`, owner
clause added only for a truthy `user_id`; first match or `None`. -/
def get_by_id (objId : Int) (userId : Option String) (db : DB) : Option Row :=
  db.rows.find? (fun r => decide (rowId r = Value.int objId) && ownerMatches userId r)

/-- The filter loop of `get_list` (service lines 73-77): one equality
predicate per key that is a column; keys that are not columns add nothing. -/
def filterMatches (queryDict : Row) (r : Row) : Bool :=
  queryDict.all (fun kv => if isColumn kv.1 then decide (getAttr r kv.1 = kv.2) else true)

/-- The full WHERE clause of `get_list`: owner clause and filter clauses. -/
def rowMatches (userId : Option String) (queryDict : Option Row) (r : Row) : Bool :=
  ownerMatches userId r &&
    match queryDict with
    | none => true
    | some q => filterMatches q r

/-- The rows matching the WHERE clause, in storage order. -/
def matchingRows (userId : Option String) (queryDict : Option Row) (db : DB) : List Row :=
  db.rows.filter (rowMatches userId queryDict)

/-- An ORDER BY clause on one column. -/
inductive SortSpec where
  | asc (field : String)
  | desc (field : String)
  deriving DecidableEq, Repr

/-- `sort.startswith('-')`: whether the first character is the descending
marker. -/
def startsWithDash (s : String) : Bool :=
  match s.data with
  | [] => false
  | c :: _ => c = '-'

/-- `sort[1:]`: the string without its first character. -/
def dropDash (s : String) : String :=
  String.mk (s.data.drop 1)

/-- The sort selection of `get_list` (service lines 82-91): no sort request
(or the falsy empty string) gives `id` descending; a leading `-` with a known
column gives descending on it; a known column gives ascending; a sort request
naming an unknown column falls through every branch, so NO ordering at all. -/
def chooseSort (sort : Option String) : Option SortSpec :=
  match sort with
  | none => some (SortSpec.desc "id")
  | some s =>
      if s = "" then some (SortSpec.desc "id")
      else if startsWithDash s then
        (if isColumn (dropDash s) then some (SortSpec.desc (dropDash s)) else none)
      else
        (if isColumn s then some (SortSpec.asc s) else none)

/-- Comparison of column values, as the store orders a column: NULL first,
then booleans, integers, strings; same-type values by their own order. -/
def vle (a b : Value) : Bool :=
  match a, b with
  | Value.int m, Value.int n => decide (m ≤ n)
  | Value.str x, Value.str y => decide (x ≤ y)
  | Value.bool x, Value.bool y => !x || y
  | Value.null, _ => true
  | _, Value.null => false
  | Value.bool _, _ => true
  | _, Value.bool _ => false
  | Value.int _, Value.str _ => true
  | Value.str _, Value.int _ => false

/-- Insert into a sorted list. -/
def insertLe {α : Type} (le : α → α → Bool) (a : α) : List α → List α
  | [] => [a]
  | b :: rest => if le a b then a :: b :: rest else b :: insertLe le a rest

/-- Insertion sort, the deterministic model of the store's ORDER BY. -/
def sortBy {α : Type} (le : α → α → Bool) : List α → List α
  | [] => []
  | a :: rest => insertLe le a (sortBy le rest)

/-- Apply an ORDER BY clause when one was built; a query without ORDER BY
returns the rows in storage order. -/
def applySort (spec : Option SortSpec) (rows : List Row) : List Row :=
  match spec with
  | none => rows
  | some (SortSpec.asc f) => sortBy (fun r s => vle (getAttr r f) (getAttr s f)) rows
  | some (SortSpec.desc f) => sortBy (fun r s => vle (getAttr s f) (getAttr r f)) rows

/-- The page returned by `get_list` (service lines 96-101). -/
structure ListResult where
  items : List Row
  total : Nat
  skip : Nat
  limit : Nat
  deriving DecidableEq, Repr

/-- `ItemsService.get_list` (service lines 56-104): count over the WHERE
clause, then the ordered page with OFFSET and LIMIT. -/
def get_list (skip limit : Nat) (userId : Option String)
    (queryDict : Option Row) (sort : Option String) (db : DB) : ListResult :=
  { items := ((applySort (chooseSort sort) (matchingRows userId queryDict db)).drop skip).take limit
    total := (matchingRows userId queryDict db).length
    skip := skip
    limit := limit }

/-- The update loop of `ItemsService.update` (service lines 113-115):
`setattr` for every patch key that is a column and is not `user_id`. -/
def applyPatch : Row → Row → Row
  | r, [] => r
  | r, kv :: rest =>
      applyPatch
        (if isColumn kv.1 && !decide (kv.1 = "user_id") then setField r kv.1 kv.2 else r)
        rest

/-- Replace the first occurrence of a row (the session object the service
mutated and committed). -/
def replaceFirst (target updated : Row) : List Row → List Row
  | [] => []
  | r :: rest => if r = target then updated :: rest else r :: replaceFirst target updated rest

/-- `ItemsService.update` (service lines 106-124): re-resolve through
`get_by_id` under the same owner constraint; absent means no write at all;
otherwise mutate the object and commit. -/
def update (objId : Int) (updateData : Row) (userId : Option String) (db : DB) :
    DB × Option Row :=
  match get_by_id objId userId db with
  | none => (db, none)
  | some obj =>
      let obj' := applyPatch obj updateData
      ({ db with rows := replaceFirst obj obj' db.rows }, some obj')

/-- Remove the first occurrence of a row. -/
def removeFirst (target : Row) : List Row → List Row
  | [] => []
  | r :: rest => if r = target then rest else r :: removeFirst target rest

/-- `ItemsService.delete` (service lines 126-140): resolve through
`get_by_id`; absent returns `false` with no write; otherwise delete the row
and return `true`. -/
def delete (objId : Int) (userId : Option String) (db : DB) : DB × Bool :=
  match get_by_id objId userId db with
  | none => (db, false)
  | some obj => ({ db with rows := removeFirst obj db.rows }, true)

/-- `update_items` (router lines 297-325): `model_dump()` then
`{k: v for k, v in ... if v is not None}` strips every null value before the
service update, so an explicit null and an omitted key reach the service
identically — as nothing. -/
def update_items (objId : Int) (data : Row) (userId : String) (db : DB) :
    DB × Option Row :=
  update objId (data.filter (fun kv => !decide (kv.2 = Value.null))) (some userId) db

/-- The loop of the batch create route: each element is created in its own
committed transaction; the first raising `create` leaves the loop through the
router's `except` handler, which rolls back the (empty) pending transaction
and answers HTTP 500, discarding the collected results. -/
def createBatchGo (userId : String) : List Row → DB → List Row →
    DB × Except SvcError (List Row)
  | [], db, acc => (db, Except.ok acc.reverse)
  | d :: rest, db, acc =>
      match create d (some userId) db with
      | Except.ok (db', row) => createBatchGo userId rest db' (row :: acc)
      | Except.error e => (db, Except.error e)

/-- `create_itemss_batch` (router lines 243-266). -/
def create_itemss_batch (itemsData : List Row) (userId : String) (db : DB) :
    DB × Except SvcError (List Row) :=
  createBatchGo userId itemsData db []

/-- A stored item row owned by user `u7`, with `id` 1 and description `"x"`. -/
def exRow1 : Row :=
  [("id", Value.int 1), ("user_id", Value.str "u7"), ("organization_id", Value.int 1),
   ("name", Value.str "latte"), ("description", Value.str "x"),
   ("item_type", Value.str "drink"), ("base_price", Value.int 4)]

/-- A second stored item row owned by user `u7`, with `id` 2. -/
def exRow2 : Row :=
  [("id", Value.int 2), ("user_id", Value.str "u7"), ("organization_id", Value.int 1),
   ("name", Value.str "mocha"), ("item_type", Value.str "drink"),
   ("base_price", Value.int 5)]

/-- The empty table. -/
def exDB0 : DB := { rows := [], nextId := 1 }

/-- A table holding only `exRow1`. -/
def exDB1 : DB := { rows := [exRow1], nextId := 2 }

/-- A table holding `exRow1` then `exRow2`, in storage order. -/
def exDB2 : DB := { rows := [exRow1, exRow2], nextId := 3 }

/-- A valid create payload. -/
def exData1 : Row :=
  [("organization_id", Value.int 1), ("name", Value.str "latte"),
   ("item_type", Value.str "drink"), ("base_price", Value.int 4)]

/-- A create payload with a field that is not a column of `items`. -/
def exDataBad : Row :=
  [("organization_id", Value.int 1), ("name", Value.str "bad"),
   ("item_type", Value.str "drink"), ("base_price", Value.int 4),
   ("bogus_field", Value.int 0)]

/-- A second valid create payload. -/
def exData3 : Row :=
  [("organization_id", Value.int 1), ("name", Value.str "mocha"),
   ("item_type", Value.str "drink"), ("base_price", Value.int 5)]

/-! ### Helper lemmas about rows and field assignment -/

theorem lookupField_setField_self (r : Row) (k : String) (v : Value) :
    lookupField (setField r k v) k = some v := by
  induction r with
  | nil => simp [setField, lookupField]
  | cons kv rest ih =>
      obtain ⟨k', w⟩ := kv
      by_cases h : k' = k
      · simp [setField, h, lookupField]
      · simp [setField, h, lookupField, ih]

theorem getAttr_setField_self (r : Row) (k : String) (v : Value) :
    getAttr (setField r k v) k = v := by
  simp [getAttr, lookupField_setField_self]

theorem lookupField_setField_ne (r : Row) (k k' : String) (v : Value) (h : k' ≠ k) :
    lookupField (setField r k v) k' = lookupField r k' := by
  induction r with
  | nil =>
      have h' : ¬ k = k' := fun hc => h hc.symm
      simp [setField, lookupField, h']
  | cons kv rest ih =>
      obtain ⟨k₀, w⟩ := kv
      rw [setField]
      by_cases h0 : k₀ = k
      · subst h0
        rw [if_pos rfl, lookupField, lookupField,
          if_neg (fun hc => h hc.symm), if_neg (fun hc => h hc.symm)]
      · rw [if_neg h0, lookupField, lookupField]
        by_cases h1 : k₀ = k'
        · rw [if_pos h1, if_pos h1]
        · rw [if_neg h1, if_neg h1, ih]

theorem getAttr_setField_ne (r : Row) (k k' : String) (v : Value) (h : k' ≠ k) :
    getAttr (setField r k v) k' = getAttr r k' := by
  simp [getAttr, lookupField_setField_ne r k k' v h]

theorem getAttr_applyPatch_user_id (patch : Row) :
    ∀ r : Row, getAttr (applyPatch r patch) "user_id" = getAttr r "user_id" := by
  induction patch with
  | nil => intro r; rfl
  | cons kv rest ih =>
      intro r
      rw [applyPatch, ih]
      by_cases h : (isColumn kv.1 && !decide (kv.1 = "user_id")) = true
      · rw [if_pos h]
        have hne : kv.1 ≠ "user_id" := by
          intro he
          rw [he] at h
          simp at h
        exact getAttr_setField_ne r kv.1 "user_id" kv.2 (Ne.symm hne)
      · rw [if_neg h]

theorem getAttr_applyPatch_not_key (patch : Row) (key : String)
    (h : ∀ v : Value, (key, v) ∉ patch) :
    ∀ r : Row, getAttr (applyPatch r patch) key = getAttr r key := by
  induction patch with
  | nil => intro r; rfl
  | cons kv rest ih =>
      intro r
      have hne : kv.1 ≠ key := by
        intro he
        exact h kv.2 (by rw [← he]; exact List.mem_cons_self _ _)
      have htail : ∀ v : Value, (key, v) ∉ rest := by
        intro v hv
        exact h v (List.mem_cons_of_mem _ hv)
      rw [applyPatch, ih htail]
      by_cases hc : (isColumn kv.1 && !decide (kv.1 = "user_id")) = true
      · rw [if_pos hc]
        exact getAttr_setField_ne r kv.1 key kv.2 (Ne.symm hne)
      · rw [if_neg hc]

/-! ### Helper lemmas about sorting and membership -/

theorem mem_insertLe {α : Type} (le : α → α → Bool) (a x : α) (l : List α) :
    x ∈ insertLe le a l ↔ x = a ∨ x ∈ l := by
  induction l with
  | nil => simp [insertLe]
  | cons b rest ih =>
      rw [insertLe]
      by_cases h : le a b = true
      · rw [if_pos h]
        simp [List.mem_cons]
      · rw [if_neg h]
        simp only [List.mem_cons, ih]
        tauto

theorem mem_sortBy {α : Type} (le : α → α → Bool) (x : α) (l : List α) :
    x ∈ sortBy le l ↔ x ∈ l := by
  induction l with
  | nil => simp [sortBy]
  | cons a rest ih => simp [sortBy, mem_insertLe, ih, List.mem_cons]

theorem mem_applySort (spec : Option SortSpec) (r : Row) (l : List Row) :
    r ∈ applySort spec l ↔ r ∈ l := by
  cases spec with
  | none => exact Iff.rfl
  | some s => cases s <;> simp [applySort, mem_sortBy]

/-! ### Helper lemmas about filters, creation and deletion -/

theorem filterMatches_filter_isColumn (q : Row) (r : Row) :
    filterMatches (q.filter (fun kv => isColumn kv.1)) r = filterMatches q r := by
  induction q with
  | nil => rfl
  | cons kv rest ih =>
      by_cases h : isColumn kv.1 = true
      · simp only [filterMatches, List.filter_cons, h, if_pos, List.all_cons] at *
        rw [ih]
      · have h' : isColumn kv.1 = false := by
          cases hb : isColumn kv.1
          · rfl
          · exact absurd hb h
        simp only [filterMatches, List.filter_cons, h', List.all_cons, if_false,
          Bool.false_eq_true, Bool.true_and] at *
        rw [ih]

theorem create_eq_ok (d : Row) (uid : Option String) (db : DB)
    (h : validData (injectOwner d uid) = true) :
    create d uid db = Except.ok
      ({ rows := db.rows ++ [rowOfData (injectOwner d uid) db.nextId],
         nextId := db.nextId + 1 },
       rowOfData (injectOwner d uid) db.nextId) := by
  simp [create, h]

theorem create_eq_error (d : Row) (uid : Option String) (db : DB)
    (h : validData (injectOwner d uid) = false) :
    create d uid db = Except.error SvcError.invalidField := by
  simp [create, h]

theorem find?_append_none {α : Type} (p : α → Bool) (l1 l2 : List α)
    (h : l1.find? p = none) :
    (l1 ++ l2).find? p = l2.find? p := by
  induction l1 with
  | nil => rfl
  | cons a rest ih =>
      cases hp : p a with
      | true =>
          rw [List.find?_cons_of_pos _ hp] at h
          cases h
      | false =>
          have hp' : ¬ p a = true := by rw [hp]; exact Bool.false_ne_true
          rw [List.find?_cons_of_neg _ hp'] at h
          rw [List.cons_append, List.find?_cons_of_neg _ hp']
          exact ih h

theorem removeFirst_ids (obj : Row) (l : List Row)
    (h : distinctIds l = true) (hm : obj ∈ l) :
    ∀ r ∈ removeFirst obj l, rowId r ≠ rowId obj := by
  induction l with
  | nil => simp at hm
  | cons x xs ih =>
      rw [distinctIds, Bool.and_eq_true] at h
      by_cases hx : x = obj
      · subst hx
        rw [removeFirst, if_pos rfl]
        intro r hr he
        have := List.all_eq_true.mp h.1 r hr
        simp [he] at this
      · rw [removeFirst, if_neg hx]
        have hmx : obj ∈ xs := by
          rcases List.mem_cons.mp hm with h1 | h1
          · exact absurd h1.symm hx
          · exact h1
        intro r hr
        rcases List.mem_cons.mp hr with h1 | h1
        · subst h1
          have := List.all_eq_true.mp h.1 obj hmx
          simpa using this
        · exact ih h.2 hmx r h1

theorem createBatchGo_ok (u : String) (l : List Row) :
    ∀ (db : DB) (acc : List Row),
      (∀ d ∈ l, validData (injectOwner d (some u)) = true) →
      ∃ rows, (createBatchGo u l db acc).2 = Except.ok rows ∧
              rows.length = acc.length + l.length := by
  induction l with
  | nil =>
      intro db acc _
      exact ⟨acc.reverse, rfl, by simp⟩
  | cons d rest ih =>
      intro db acc h
      have hd := h d (List.mem_cons_self d rest)
      rw [createBatchGo, create_eq_ok d (some u) db hd]
      obtain ⟨rows, h1, h2⟩ :=
        ih _ (rowOfData (injectOwner d (some u)) db.nextId :: acc)
          (fun x hx => h x (List.mem_cons_of_mem d hx))
      refine ⟨rows, h1, ?_⟩
      rw [h2]
      simp [List.length_cons]
      omega

theorem createBatchGo_err (u : String) (l : List Row) :
    ∀ (db : DB) (acc : List Row),
      (∃ d ∈ l, validData (injectOwner d (some u)) = false) →
      (createBatchGo u l db acc).2 = Except.error SvcError.invalidField := by
  induction l with
  | nil =>
      intro db acc h
      simp at h
  | cons d rest ih =>
      intro db acc h
      obtain ⟨x, hx, hxv⟩ := h
      by_cases hd : validData (injectOwner d (some u)) = true
      · rw [createBatchGo, create_eq_ok d (some u) db hd]
        apply ih
        rcases List.mem_cons.mp hx with h1 | h1
        · subst h1; rw [hxv] at hd; cases hd
        · exact ⟨x, h1, hxv⟩
      · have hdf : validData (injectOwner d (some u)) = false := by
          cases hb : validData (injectOwner d (some u))
          · rfl
          · exact absurd hb hd
        rw [createBatchGo, create_eq_error d (some u) db hdf]

/-! ### The claims -/

/-- C5: a record created under owner `a` is invisible to `get_by_id` under a
distinct owner `b` — the lookup answers NotFound (`none`), exactly as if the
record did not exist — while `get_by_id` under owner `a` returns the record. -/
theorem C5_owner_scoping (data : Row) (a b : String) (db db' : DB) (row : Row)
    (hfresh : db.fresh = true) (ha : a ≠ "") (hb : b ≠ "") (hab : b ≠ a)
    (hnoid : lookupField data "id" = none)
    (hcreate : create data (some a) db = Except.ok (db', row)) :
    get_by_id db.nextId (some b) db' = none ∧
    get_by_id db.nextId (some a) db' = some row := by
  have hv : validData (injectOwner data (some a)) = true := by
    cases hb' : validData (injectOwner data (some a))
    · rw [create_eq_error data (some a) db hb'] at hcreate
      cases hcreate
    · rfl
  rw [create_eq_ok data (some a) db hv] at hcreate
  simp only [Except.ok.injEq, Prod.mk.injEq] at hcreate
  obtain ⟨hdb', hrow⟩ := hcreate
  subst hdb'
  subst hrow
  have hinj : injectOwner data (some a) = setField data "user_id" (Value.str a) := by
    show (if a = "" then data else setField data "user_id" (Value.str a)) = _
    rw [if_neg ha]
  have hlid : lookupField (injectOwner data (some a)) "id" = none := by
    rw [hinj, lookupField_setField_ne data "user_id" "id" (Value.str a) (by decide), hnoid]
  have hform : rowOfData (injectOwner data (some a)) db.nextId
      = setField (injectOwner data (some a)) "id" (Value.int db.nextId) := by
    unfold rowOfData
    rw [hlid]

  have hrid : rowId (rowOfData (injectOwner data (some a)) db.nextId)
      = Value.int db.nextId := by
    rw [hform]
    exact getAttr_setField_self _ "id" _
  have huid : getAttr (rowOfData (injectOwner data (some a)) db.nextId) "user_id"
      = Value.str a := by
    rw [hform, getAttr_setField_ne _ "id" "user_id" _ (by decide), hinj]
    exact getAttr_setField_self data "user_id" (Value.str a)
  unfold DB.fresh at hfresh
  have hno : ∀ r ∈ db.rows, rowId r ≠ Value.int db.nextId := by
    intro r hr he
    have hall := List.all_eq_true.mp hfresh r hr
    rw [he] at hall
    simp at hall
  have hpre : ∀ uid : Option String,
      List.find? (fun r => decide (rowId r = Value.int db.nextId) && ownerMatches uid r)
        db.rows = none := by
    intro uid
    apply List.find?_eq_none.mpr
    intro r hr
    simp [hno r hr]
  have hab' : a ≠ b := fun he => hab he.symm
  constructor
  · unfold get_by_id
    rw [find?_append_none _ _ _ (hpre (some b))]
    rw [List.find?_cons_of_neg]
    · rfl
    · simp [hrid, ownerMatches, hb, huid, hab']
  · unfold get_by_id
    rw [find?_append_none _ _ _ (hpre (some a))]
    rw [List.find?_cons_of_pos]
    simp [hrid, ownerMatches, ha, huid]

/-- The row produced by creating `exData1` for owner `u7` on the empty table. -/
def exCreated1 : Row :=
  [("organization_id", Value.int 1), ("name", Value.str "latte"),
   ("item_type", Value.str "drink"), ("base_price", Value.int 4),
   ("user_id", Value.str "u7"), ("id", Value.int 1)]

/-- Witness for C5 at a concrete create. -/
theorem C5_witness :
    get_by_id exDB0.nextId (some "u9") { rows := [exCreated1], nextId := 2 } = none ∧
    get_by_id exDB0.nextId (some "u7") { rows := [exCreated1], nextId := 2 }
      = some exCreated1 :=
  C5_owner_scoping exData1 "u7" "u9" exDB0 { rows := [exCreated1], nextId := 2 }
    exCreated1 (by decide) (by decide) (by decide) (by decide) (by decide) rfl

/-- C6: partial update never writes the owner field: whatever the patch
contains (the owner field `user_id` included), the updated record returned
and stored by `update` has the owner field of the record it re-resolved. -/
theorem C6_owner_never_updated (objId : Int) (patch : Row) (uid : Option String)
    (db : DB) (obj : Row)
    (hobj : get_by_id objId uid db = some obj) :
    (update objId patch uid db).2 = some (applyPatch obj patch) ∧
    getAttr (applyPatch obj patch) "user_id" = getAttr obj "user_id" := by
  constructor
  · unfold update
    rw [hobj]
  · exact getAttr_applyPatch_user_id patch obj

/-- Witness for C6: a patch that tries to set `user_id` leaves it unchanged. -/
theorem C6_witness :
    (update 1 [("user_id", Value.str "evil"), ("name", Value.str "hacked")]
        (some "u7") exDB1).2
      = some (applyPatch exRow1 [("user_id", Value.str "evil"), ("name", Value.str "hacked")]) ∧
    getAttr (applyPatch exRow1 [("user_id", Value.str "evil"), ("name", Value.str "hacked")])
        "user_id"
      = getAttr exRow1 "user_id" :=
  C6_owner_never_updated 1 [("user_id", Value.str "evil"), ("name", Value.str "hacked")]
    (some "u7") exDB1 exRow1 (by decide)

/-- C7: when a (truthy) `ownerId` is provided, the created record's owner
field equals it, whatever value the caller put in the fields mapping. -/
theorem C7_owner_injected (data : Row) (u : String) (db db' : DB) (row : Row)
    (hu : u ≠ "") (hcreate : create data (some u) db = Except.ok (db', row)) :
    getAttr row "user_id" = Value.str u := by
  have hv : validData (injectOwner data (some u)) = true := by
    cases hb' : validData (injectOwner data (some u))
    · rw [create_eq_error data (some u) db hb'] at hcreate
      cases hcreate
    · rfl
  rw [create_eq_ok data (some u) db hv] at hcreate
  simp only [Except.ok.injEq, Prod.mk.injEq] at hcreate
  obtain ⟨hdb', hrow⟩ := hcreate
  subst hrow
  have h1 : getAttr (rowOfData (injectOwner data (some u)) db.nextId) "user_id"
      = getAttr (injectOwner data (some u)) "user_id" := by
    unfold rowOfData
    cases hl : lookupField (injectOwner data (some u)) "id" with
    | none => exact getAttr_setField_ne _ "id" "user_id" _ (by decide)
    | some v => rfl
  rw [h1]
  show getAttr (if u = "" then data else setField data "user_id" (Value.str u)) "user_id" = _
  rw [if_neg hu]
  exact getAttr_setField_self data "user_id" (Value.str u)

/-- A create payload in which the caller tries to set the owner field. -/
def exDataEvil : Row :=
  [("user_id", Value.str "evil"), ("organization_id", Value.int 1),
   ("name", Value.str "latte"), ("item_type", Value.str "drink"),
   ("base_price", Value.int 4)]

/-- The row produced by creating `exDataEvil` for owner `u7` on the empty
table: the injected owner overwrote the caller-supplied one. -/
def exCreatedEvil : Row :=
  [("user_id", Value.str "u7"), ("organization_id", Value.int 1),
   ("name", Value.str "latte"), ("item_type", Value.str "drink"),
   ("base_price", Value.int 4), ("id", Value.int 1)]

/-- Witness for C7 at a concrete create whose payload claims another owner. -/
theorem C7_witness : getAttr exCreatedEvil "user_id" = Value.str "u7" :=
  C7_owner_injected exDataEvil "u7" exDB0
    { rows := [exCreatedEvil], nextId := 2 } exCreatedEvil (by decide) rfl

/-- C8: when no record with the given id is visible under the ownership
constraint, `update` returns NotFound (`none`) and the stored state after the
call is the stored state before it. -/
theorem C8_notfound_no_write (objId : Int) (patch : Row) (uid : Option String)
    (db : DB) (habs : get_by_id objId uid db = none) :
    update objId patch uid db = (db, none) := by
  unfold update
  rw [habs]

/-- Witness for C8: updating a missing id changes nothing. -/
theorem C8_witness :
    update 9 [("name", Value.str "z")] (some "u7") exDB1 = (exDB1, none) :=
  C8_notfound_no_write 9 [("name", Value.str "z")] (some "u7") exDB1 (by decide)

/-- C9: `delete` returns `false` (never an error) when the record is absent
or not owned, leaving the state untouched; when the record is visible it
removes the row and returns `true`, and deleting the same id again returns
`false` while changing nothing. -/
theorem C9_delete_idempotent (objId : Int) (uid : Option String) (db : DB)
    (huniq : db.uniqueIds = true) :
    (get_by_id objId uid db = none → delete objId uid db = (db, false)) ∧
    (∀ obj : Row, get_by_id objId uid db = some obj →
       (delete objId uid db).2 = true ∧
       delete objId uid (delete objId uid db).1 = ((delete objId uid db).1, false)) := by
  constructor
  · intro h
    unfold delete
    rw [h]
  · intro obj hobj
    have hobj' := hobj
    unfold get_by_id at hobj'
    have hmem : obj ∈ db.rows := List.mem_of_find?_eq_some hobj'
    have hpred := List.find?_some hobj'
    have hid : rowId obj = Value.int objId := by
      by_contra hne
      simp [hne] at hpred
    have hdel : delete objId uid db = ({ db with rows := removeFirst obj db.rows }, true) := by
      unfold delete
      rw [hobj]
    have hnone : get_by_id objId uid { db with rows := removeFirst obj db.rows } = none := by
      unfold get_by_id
      apply List.find?_eq_none.mpr
      intro r hr
      have hne := removeFirst_ids obj db.rows huniq hmem r hr
      rw [hid] at hne
      simp [hne]
    rw [hdel]
    refine ⟨rfl, ?_⟩
    unfold delete
    rw [hnone]

/-- Witness for C9: delete, delete again, and delete a missing id. -/
theorem C9_witness :
    (delete 1 (some "u7") exDB1).2 = true ∧
    delete 1 (some "u7") (delete 1 (some "u7") exDB1).1
      = ((delete 1 (some "u7") exDB1).1, false) ∧
    delete 5 (some "u7") exDB1 = (exDB1, false) := by
  have h := (C9_delete_idempotent 1 (some "u7") exDB1 (by decide)).2 exRow1 (by decide)
  exact ⟨h.1, h.2, (C9_delete_idempotent 5 (some "u7") exDB1 (by decide)).1 (by decide)⟩

/-- C10: an absent caller identity and the empty-string identity behave
identically on every operation: the owner injection and the owner predicate
are skipped entirely, so the operations observe and affect records of every
owner — the unscoped `get_by_id` resolves purely by `id`. -/
theorem C10_empty_owner_unscoped (data : Row) (objId : Int) (skip limit : Nat)
    (q : Option Row) (sort : Option String) (patch : Row) (db : DB) (r : Row) :
    injectOwner data (some "") = data ∧
    injectOwner data none = data ∧
    ownerMatches (some "") r = true ∧
    ownerMatches none r = true ∧
    create data (some "") db = create data none db ∧
    get_by_id objId (some "") db = get_by_id objId none db ∧
    get_list skip limit (some "") q sort db = get_list skip limit none q sort db ∧
    update objId patch (some "") db = update objId patch none db ∧
    delete objId (some "") db = delete objId none db ∧
    get_by_id objId none db
      = db.rows.find? (fun t => decide (rowId t = Value.int objId)) := by
  have hown : ownerMatches (some "") = ownerMatches none := by
    funext t
    simp [ownerMatches]
  have hrm : rowMatches (some "") = rowMatches none := by
    funext qd t
    simp only [rowMatches, hown]
  refine ⟨by simp [injectOwner], rfl, by simp [ownerMatches], rfl, ?_, ?_, ?_, ?_, ?_, ?_⟩
  · simp [create, injectOwner]
  · simp only [get_by_id, hown]
  · simp only [get_list, matchingRows, hrm]
  · simp only [update, get_by_id, hown]
  · simp only [delete, get_by_id, hown]
  · simp [get_by_id, ownerMatches]

/-- C1 (counterexample): a batch create of three payloads whose middle
element carries an invalid field does NOT succeed for the two valid
siblings: the whole batch surfaces an error, and only the element before the
failure was committed — the third was never attempted. -/
theorem C1_counterexample :
    (create_itemss_batch [exData1, exDataBad, exData3] "u7" exDB0).2
        = Except.error SvcError.invalidField ∧
    (create_itemss_batch [exData1, exDataBad, exData3] "u7" exDB0).1.rows.length = 1 := by
  exact ⟨rfl, rfl⟩

/-- C1 (amended): batch create attempts elements in order; when every
element is valid all are created and returned, but the first element failure
aborts the batch with an error instead of skipping the element — an
individual element's failure DOES abort the remaining elements. -/
theorem C1_batch_abort (itemsData : List Row) (u : String) (db : DB) :
    ((∀ d ∈ itemsData, validData (injectOwner d (some u)) = true) →
      ∃ rows, (create_itemss_batch itemsData u db).2 = Except.ok rows ∧
              rows.length = itemsData.length) ∧
    ((∃ d ∈ itemsData, validData (injectOwner d (some u)) = false) →
      (create_itemss_batch itemsData u db).2 = Except.error SvcError.invalidField) := by
  constructor
  · intro h
    obtain ⟨rows, h1, h2⟩ := createBatchGo_ok u itemsData db [] h
    refine ⟨rows, h1, ?_⟩
    rw [h2]
    simp
  · intro h
    exact createBatchGo_err u itemsData db [] h

/-- Witness for C1 at a one-element batch whose element is invalid. -/
theorem C1_witness :
    (create_itemss_batch [exDataBad] "u9" exDB0).2
      = Except.error SvcError.invalidField :=
  (C1_batch_abort [exDataBad] "u9" exDB0).2 ⟨exDataBad, by decide, by decide⟩

/-- C2 (counterexample): a list call whose filters contain the unknown key
`bogus` does not fail with InvalidField: storage is consulted and the normal
full page comes back, the unknown key having imposed no predicate at all. -/
theorem C2_counterexample :
    get_list 0 20 (some "u7") (some [("bogus", Value.int 1)]) none exDB1 =
      { items := [exRow1], total := 1, skip := 0, limit := 20 } := by
  exact rfl

/-- A congruence step: dropping the unknown keys from the filter map changes
no row's WHERE-clause verdict. -/
theorem filter_rowMatches_congr (uid : Option String) (q : Row) (l : List Row) :
    l.filter (rowMatches uid (some (q.filter (fun kv => isColumn kv.1))))
      = l.filter (rowMatches uid (some q)) := by
  induction l with
  | nil => rfl
  | cons r rest ih =>
      rw [List.filter_cons, List.filter_cons, ih]
      have h : rowMatches uid (some (q.filter (fun kv => isColumn kv.1))) r
          = rowMatches uid (some q) r := by
        simp only [rowMatches, filterMatches_filter_isColumn]
      rw [h]

/-- C2 (amended): keys of the filters map that are not known fields are
silently ignored — the call behaves exactly as if they were absent, and no
error is raised — while every known key contributes an equality predicate
conjoined with the owner predicate: each returned row passes the owner test
and agrees with every known filter key. -/
theorem C2_unknown_filter_keys_ignored (skip limit : Nat) (uid : Option String)
    (q : Row) (sort : Option String) (db : DB) :
    get_list skip limit uid (some q) sort db
      = get_list skip limit uid (some (q.filter (fun kv => isColumn kv.1))) sort db ∧
    ∀ r ∈ (get_list skip limit uid (some q) sort db).items,
      ownerMatches uid r = true ∧
      ∀ kv ∈ q, isColumn kv.1 = true → getAttr r kv.1 = kv.2 := by
  constructor
  · simp only [get_list, matchingRows, filter_rowMatches_congr]
  · intro r hr
    have hr1 : r ∈ applySort (chooseSort sort) (matchingRows uid (some q) db) :=
      List.drop_subset _ _ (List.take_subset _ _ hr)
    have hr2 : r ∈ matchingRows uid (some q) db := (mem_applySort _ _ _).mp hr1
    have hm := List.mem_filter.mp hr2
    have hrm := hm.2
    simp only [rowMatches, Bool.and_eq_true] at hrm
    obtain ⟨how, hflt⟩ := hrm
    refine ⟨how, ?_⟩
    intro kv hkv hcol
    rw [filterMatches] at hflt
    have hall := List.all_eq_true.mp hflt kv hkv
    simp [hcol] at hall
    exact hall

/-- Witness for C2 on a filter map mixing an unknown and a known key. -/
theorem C2_witness :
    ownerMatches (some "u7") exRow1 = true ∧
    getAttr exRow1 "name" = Value.str "latte" := by
  have h := (C2_unknown_filter_keys_ignored 0 20 (some "u7")
      [("bogus", Value.int 1), ("name", Value.str "latte")] none exDB1).2
      exRow1 (by decide)
  exact ⟨h.1, h.2 ("name", Value.str "latte") (by decide) (by decide)⟩

/-- C3 (counterexample): updating a record whose `description` is the string
`"x"` with a patch carrying an explicit null for `description` does NOT
clear the field: the returned record still has `description = "x"`. -/
theorem C3_counterexample :
    Option.map (fun r => getAttr r "description")
        (update_items 1 [("description", Value.null)] "u7" exDB1).2
      = some (Value.str "x") := by
  exact rfl

/-- C3 (amended): the router strips null-valued keys from the patch before
the service update, so a key that is present only with an explicit null — or
absent altogether — leaves the stored field unchanged: explicit null behaves
exactly like omission, and no field can be cleared through update. -/
theorem C3_null_keys_dropped (objId : Int) (data : Row) (u : String) (db : DB)
    (obj r : Row) (key : String)
    (hobj : get_by_id objId (some u) db = some obj)
    (hr : (update_items objId data u db).2 = some r)
    (hkey : ∀ v : Value, (key, v) ∈ data → v = Value.null) :
    getAttr r key = getAttr obj key := by
  unfold update_items update at hr
  rw [hobj] at hr
  simp only [Option.some.injEq] at hr
  rw [← hr]
  apply getAttr_applyPatch_not_key
  intro v hv
  have hmem := List.mem_filter.mp hv
  have hnull := hkey v hmem.1
  have h2 := hmem.2
  rw [hnull] at h2
  simp at h2

/-- Witness for C3: the explicit-null patch leaves the record where it was. -/
theorem C3_witness :
    (update_items 1 [("description", Value.null)] "u7" exDB1).2 = some exRow1 ∧
    getAttr exRow1 "description" = getAttr exRow1 "description" := by
  refine ⟨rfl, ?_⟩
  exact C3_null_keys_dropped 1 [("description", Value.null)] "u7" exDB1 exRow1 exRow1
    "description" (by decide) rfl
    (by intro v hv
        simp only [List.mem_singleton, Prod.mk.injEq] at hv
        exact hv.2)

/-- C4 (counterexample): on a two-row table, a list call with the unknown
sort field `bogus` returns the rows in storage order — NOT in the default
`id`-descending order the no-sort call produces. -/
theorem C4_counterexample :
    (get_list 0 20 none none (some "bogus") exDB2).items = [exRow1, exRow2] ∧
    (get_list 0 20 none none none exDB2).items = [exRow2, exRow1] := by
  exact ⟨rfl, rfl⟩

/-- C4 (amended): without a sort request the page is ordered by `id`
descending; a sort request naming an unknown field is silently ignored but
then NO ordering at all is applied, so the page comes back in the store's
underlying order rather than by `id` descending; a known sort field orders
ascending, or descending under the leading `-` marker. -/
theorem C4_unknown_sort_unordered (skip limit : Nat) (uid : Option String)
    (q : Option Row) (db : DB) (s : String) :
    (get_list skip limit uid q none db).items
      = ((sortBy (fun r t => vle (getAttr t "id") (getAttr r "id"))
            (matchingRows uid q db)).drop skip).take limit ∧
    (s ≠ "" → startsWithDash s = false → isColumn s = false →
      (get_list skip limit uid q (some s) db).items
        = ((matchingRows uid q db).drop skip).take limit) ∧
    (startsWithDash s = true → isColumn (dropDash s) = false →
      (get_list skip limit uid q (some s) db).items
        = ((matchingRows uid q db).drop skip).take limit) ∧
    (s ≠ "" → startsWithDash s = false → isColumn s = true →
      (get_list skip limit uid q (some s) db).items
        = ((sortBy (fun r t => vle (getAttr r s) (getAttr t s))
              (matchingRows uid q db)).drop skip).take limit) ∧
    (startsWithDash s = true → isColumn (dropDash s) = true →
      (get_list skip limit uid q (some s) db).items
        = ((sortBy (fun r t => vle (getAttr t (dropDash s)) (getAttr r (dropDash s)))
              (matchingRows uid q db)).drop skip).take limit) := by
  have hnes : startsWithDash s = true → s ≠ "" := by
    intro h he
    rw [he] at h
    exact absurd h (by decide)
  refine ⟨rfl, ?_, ?_, ?_, ?_⟩
  · intro h1 h2 h3
    simp [get_list, chooseSort, h1, h2, h3, applySort]
  · intro h1 h2
    simp [get_list, chooseSort, hnes h1, h1, h2, applySort]
  · intro h1 h2 h3
    simp [get_list, chooseSort, h1, h2, h3, applySort]
  · intro h1 h2
    simp [get_list, chooseSort, hnes h1, h1, h2, applySort]

/-- Witness for C4 at the unknown sort field `bogus`. -/
theorem C4_witness :
    (get_list 0 20 none none (some "bogus") exDB2).items
      = ((matchingRows none none exDB2).drop 0).take 20 :=
  (C4_unknown_sort_unordered 0 20 none none exDB2 "bogus").2.1
    (by decide) (by decide) (by decide)

end Two7POS
